import Mathlib

/-!
Verification of the `jrpc-types` crate: a strict data model for JSON-RPC 2.0
message objects (Request, Notification, Response, with their `id`, `params`,
`jsonrpc` and status fields).

The development shallowly embeds the crate's data types and its serde-derived
encode/decode behaviour over a generic JSON value tree.  The textual JSON
layer (`serde_json`'s parser and printer) is an external collaborator of the
crate; it is modelled here by an executable recursive-descent reader and a
compact printer over the same tree.

Modelling conventions:
- Rust `i64` / `i32` become `Int`; range checks that the Rust types make
  implicit (e.g. an `i32` field decoded from a JSON integer) are explicit.
- Rust `f32` payloads are carried opaquely: the code under verification never
  computes with them, it only stores, compares and transports them, so the
  embedding uses `Rat` for the finite float values.  Non-finite floats
  (NaN, infinities) are outside the model.
- Rust `panic!` and fallible conversions become `Option` / `Except`.
-/

namespace Jrpc

/-- Generic JSON value tree, the interface type of the external JSON parser
and printer (`serde_json::Value`).  Numbers distinguish the integral case
(a literal without fraction or exponent, within `i64` range, as parsed by
`serde_json`) from the fractional case (a literal carrying a decimal point
or exponent, which `serde_json` parses as a float). -/
inductive Json where
  | null
  | bool (b : Bool)
  | num (n : Int)
  | fnum (q : Rat)
  | str (s : String)
  | arr (elems : List Json)
  | obj (fields : List (String × Json))

/-- JSON type descriptor used in serde `invalid_type` error messages. -/
def Json.typeName : Json → String
  | .null => "null"
  | .bool _ => "boolean"
  | .num _ => "integer"
  | .fnum _ => "floating point"
  | .str _ => "string"
  | .arr _ => "sequence"
  | .obj _ => "map"

/-- True exactly on the two structured JSON kinds (object, array). -/
def Json.isStructured : Json → Bool
  | .obj _ => true
  | .arr _ => true
  | _ => false

/-- True exactly on JSON `null`. -/
def Json.isNull : Json → Bool
  | .null => true
  | _ => false

/-- Decode-time error, mirroring the distinctions `serde` makes: a wrong JSON
type at a position, a custom validation message, and missing or duplicated
object fields. -/
inductive DeError where
  | invalidType (found expected : String)
  | custom (msg : String)
  | missingField (name : String)
  | duplicateField (name : String)
deriving DecidableEq

/-- Crate error type (`src/error.rs`): a type-mismatch conversion error or a
wrapped serde error. -/
inductive Error where
  | invalidType (msg : String)
  | serde (msg : String)
deriving DecidableEq

/-- Render a decode error to the message wrapped by `Error::Serde`. -/
def DeError.message : DeError → String
  | .invalidType found expected => "invalid type: " ++ found ++ ", expected " ++ expected
  | .custom msg => msg
  | .missingField name => "missing field " ++ name
  | .duplicateField name => "duplicate field " ++ name

/-- Embeds `version_deserialize` (`src/version.rs`): the visitor accepts the
string "2.0" unchanged, rejects any other string with a custom message
naming the offending value, and rejects any non-string JSON value with a
type error (the visitor only implements `visit_str`, so every other JSON
type hits the default visitor method, an `invalid_type` error). -/
def versionFromJson : Json → Except DeError String
  | .str v =>
    if v == "2.0" then .ok v
    else .error (.custom ("jsonrpc version NOT 2.0: " ++ v))
  | j => .error (.invalidType j.typeName "jsonrpc version MUST be \"2.0\"")

/-- Embeds the `Id` enum (`src/id.rs`): an untagged four-variant value.
Constructor names are lowercased versions of the Rust `String` / `Number` /
`Fractional` / `Null` variants. -/
inductive Id where
  | string (s : String)
  | number (n : Int)
  | fractional (x : Rat)
  | null
deriving DecidableEq

/-- Embeds `impl TryFrom<Id> for String`. -/
def Id.tryIntoString : Id → Except Error String
  | .string v => .ok v
  | .number _ => .error (.invalidType "cannot convert Id type Number to String")
  | .fractional _ => .error (.invalidType "cannot convert Id type Fractional to String")
  | .null => .error (.invalidType "cannot convert Id type Null to String")

/-- Embeds `impl TryFrom<Id> for i64`. -/
def Id.tryIntoInt : Id → Except Error Int
  | .string _ => .error (.invalidType "cannot convert Id type String to Number")
  | .number v => .ok v
  | .fractional _ => .error (.invalidType "cannot convert Id type Fractional to Number")
  | .null => .error (.invalidType "cannot convert Id type Null to Number")

/-- Embeds `impl TryFrom<Id> for f32`. -/
def Id.tryIntoF32 : Id → Except Error Rat
  | .string _ => .error (.invalidType "cannot convert Id type String to Fractional")
  | .number _ => .error (.invalidType "cannot convert Id type Number to Fractional")
  | .fractional v => .ok v
  | .null => .error (.invalidType "cannot convert Id type Null to Fractional")

/-- Embeds `impl TryFrom<Id> for ()`. -/
def Id.tryIntoUnit : Id → Except Error Unit
  | .string _ => .error (.invalidType "cannot convert Id type String to ()")
  | .number _ => .error (.invalidType "cannot convert Id type Number to ()")
  | .fractional _ => .error (.invalidType "cannot convert Id type Fractional to ()")
  | .null => .ok ()

/-- Embeds `impl From<&str> for Id`. -/
def Id.ofString (s : String) : Id := .string s

/-- Embeds `impl From<i64> for Id`. -/
def Id.ofInt (n : Int) : Id := .number n

/-- Embeds `impl From<f32> for Id`. -/
def Id.ofF32 (x : Rat) : Id := .fractional x

/-- Embeds `impl From<()> for Id`. -/
def Id.ofUnit (_ : Unit) : Id := .null

/-- Serialization of `Id` (derived serde `Serialize`, untagged): each variant
emits its payload's JSON form directly. -/
def Id.toJson : Id → Json
  | .string s => .str s
  | .number n => .num n
  | .fractional x => .fnum x
  | .null => .null

/-- Deserialization of `Id` (derived serde `Deserialize`, `#[serde(untagged)]`):
the variants are tried in declaration order String, Number, Fractional, Null.
On this value model each JSON type is claimed by exactly one variant: a JSON
string by `String`; an integral number (no decimal point, `i64` range) by
`Number` (the `String` trial fails on a number); a fractional number by
`Fractional` (the `i64` trial rejects float content); `null` by `Null`.
Booleans, arrays and objects match no variant. -/
def Id.fromJson : Json → Except DeError Id
  | .str s => .ok (.string s)
  | .num n => .ok (.number n)
  | .fnum x => .ok (.fractional x)
  | .null => .ok .null
  | _ => .error (.custom "data did not match any variant of untagged enum Id")

/-- Embeds the `Params` newtype (`src/params.rs`) over a generic JSON value.
The Rust field is public, but every construction path in the crate goes
through the object-or-array shape check. -/
structure Params where
  val : Json

/-- Embeds `Params::deserialize`: accept any JSON object or array unchanged,
reject every other JSON kind with the custom shape message. -/
def Params.fromJson (v : Json) : Except DeError Params :=
  if v.isStructured then .ok ⟨v⟩
  else .error (.custom "\"params\" must be a JSON object or array")

/-- Serialization of `Params` (derived, transparent newtype). -/
def Params.toJson (p : Params) : Json := p.val

/-- Decoding of an `Option<Params>` struct field: serde's `Option` handling
maps JSON `null` to `None` before `Params::deserialize` runs; any other
value is passed through the `Params` shape check. -/
def decodeOptionParams : Json → Except DeError (Option Params)
  | .null => .ok none
  | v => (Params.fromJson v).map some

/-- Embeds the `Request` struct (`src/request.rs`). -/
structure Request where
  jsonrpc : String
  method : String
  params : Option Params
  id : Id

/-- Serialization of `Request` (derived): an object with the four keys in
field-declaration order.  An unset `params` serializes as JSON `null`
(the `Option` field carries no skip attribute). -/
def Request.toJson (r : Request) : Json :=
  .obj [("jsonrpc", .str r.jsonrpc),
        ("method", .str r.method),
        ("params", match r.params with | some p => p.toJson | none => .null),
        ("id", r.id.toJson)]

/-- Field loop of the derived `Request` deserializer: walk the object's
entries in document order, dispatching each key to its field (a repeated
known key is a duplicate-field error, an unknown key is ignored), then
require `jsonrpc`, `method` and `id`; a missing `params` is `None`. -/
def Request.fromFields :
    List (String × Json) → Option String → Option String →
    Option (Option Params) → Option Id → Except DeError Request
  | [], jr?, m?, p?, i? =>
    match jr? with
    | none => .error (.missingField "jsonrpc")
    | some jr =>
      match m? with
      | none => .error (.missingField "method")
      | some m =>
        match i? with
        | none => .error (.missingField "id")
        | some i => .ok ⟨jr, m, p?.getD none, i⟩
  | (k, v) :: rest, jr?, m?, p?, i? =>
    if k == "jsonrpc" then
      if jr?.isSome then .error (.duplicateField "jsonrpc")
      else
        match versionFromJson v with
        | .ok s => Request.fromFields rest (some s) m? p? i?
        | .error e => .error e
    else if k == "method" then
      if m?.isSome then .error (.duplicateField "method")
      else
        match v with
        | .str s => Request.fromFields rest jr? (some s) p? i?
        | v => .error (.invalidType v.typeName "a string")
    else if k == "params" then
      if p?.isSome then .error (.duplicateField "params")
      else
        match decodeOptionParams v with
        | .ok p => Request.fromFields rest jr? m? (some p) i?
        | .error e => .error e
    else if k == "id" then
      if i?.isSome then .error (.duplicateField "id")
      else
        match Id.fromJson v with
        | .ok i => Request.fromFields rest jr? m? p? (some i)
        | .error e => .error e
    else Request.fromFields rest jr? m? p? i?

/-- Deserialization of `Request`: the derived visitor requires a JSON object
and runs the field loop. -/
def Request.fromJson : Json → Except DeError Request
  | .obj fields => Request.fromFields fields none none none none
  | j => .error (.invalidType j.typeName "struct Request")

/-- Embeds `request::builder::Builder::<Method, Id>::build`: the terminal
builder stage assembles a `Request` with the fixed version tag.  The staged
setters guarantee `method` and `id` were each supplied exactly once; the
optional `params`, when supplied, went through the `Params` shape check. -/
def Request.build (method : String) (params : Option Params) (id : Id) : Request :=
  ⟨"2.0", method, params, id⟩

/-- Embeds the `Notification` struct (`src/notification.rs`): a `Request`
without the `id` field. -/
structure Notification where
  jsonrpc : String
  method : String
  params : Option Params

/-- Serialization of `Notification` (derived): three keys in declaration
order, unset `params` as JSON `null`. -/
def Notification.toJson (n : Notification) : Json :=
  .obj [("jsonrpc", .str n.jsonrpc),
        ("method", .str n.method),
        ("params", match n.params with | some p => p.toJson | none => .null)]

/-- Field loop of the derived `Notification` deserializer.  The struct has no
`deny_unknown_fields` attribute, so keys other than `jsonrpc`, `method`
and `params` — including an `id` key — are skipped. -/
def Notification.fromFields :
    List (String × Json) → Option String → Option String →
    Option (Option Params) → Except DeError Notification
  | [], jr?, m?, p? =>
    match jr? with
    | none => .error (.missingField "jsonrpc")
    | some jr =>
      match m? with
      | none => .error (.missingField "method")
      | some m => .ok ⟨jr, m, p?.getD none⟩
  | (k, v) :: rest, jr?, m?, p? =>
    if k == "jsonrpc" then
      if jr?.isSome then .error (.duplicateField "jsonrpc")
      else
        match versionFromJson v with
        | .ok s => Notification.fromFields rest (some s) m? p?
        | .error e => .error e
    else if k == "method" then
      if m?.isSome then .error (.duplicateField "method")
      else
        match v with
        | .str s => Notification.fromFields rest jr? (some s) p?
        | v => .error (.invalidType v.typeName "a string")
    else if k == "params" then
      if p?.isSome then .error (.duplicateField "params")
      else
        match decodeOptionParams v with
        | .ok p => Notification.fromFields rest jr? m? (some p)
        | .error e => .error e
    else Notification.fromFields rest jr? m? p?

/-- Deserialization of `Notification`. -/
def Notification.fromJson : Json → Except DeError Notification
  | .obj fields => Notification.fromFields fields none none none
  | j => .error (.invalidType j.typeName "struct Notification")

/-- Embeds `notification::builder::Builder::<Method>::build`. -/
def Notification.build (method : String) (params : Option Params) : Notification :=
  ⟨"2.0", method, params⟩

/-- Embeds the `Status` enum (`src/response.rs`): success with an arbitrary
result value, or error with an `i32` code, a message and optional data. -/
inductive Status where
  | success (result : Json)
  | error (code : Int) (message : String) (data : Option Json)

/-- Embeds the `Response` struct (`src/response.rs`); `status` is flattened
into the response object on the wire. -/
structure Response where
  jsonrpc : String
  id : Id
  status : Status

/-- The i32 range check serde performs when decoding the `code` field from a
JSON integer. -/
def i32InRange (n : Int) : Bool :=
  decide (-(2 ^ 31) ≤ n) && decide (n < 2 ^ 31)

/-- Field loop of the `Status::Error` struct variant deserializer: `code`
must be an in-range JSON integer, `message` a string; a `data` of JSON
`null` (like a missing `data`) becomes `None`; unknown keys are ignored. -/
def errorFields :
    List (String × Json) → Option Int → Option String →
    Option (Option Json) → Except DeError Status
  | [], c?, m?, d? =>
    match c? with
    | none => .error (.missingField "code")
    | some c =>
      match m? with
      | none => .error (.missingField "message")
      | some m => .ok (.error c m (d?.getD none))
  | (k, v) :: rest, c?, m?, d? =>
    if k == "code" then
      if c?.isSome then .error (.duplicateField "code")
      else
        match v with
        | .num n =>
          if i32InRange n then errorFields rest (some n) m? d?
          else .error (.custom "invalid value: integer out of range for i32")
        | v => .error (.invalidType v.typeName "i32")
    else if k == "message" then
      if m?.isSome then .error (.duplicateField "message")
      else
        match v with
        | .str s => errorFields rest c? (some s) d?
        | v => .error (.invalidType v.typeName "a string")
    else if k == "data" then
      if d?.isSome then .error (.duplicateField "data")
      else
        match v with
        | .null => errorFields rest c? m? (some none)
        | v => errorFields rest c? m? (some (some v))
    else errorFields rest c? m? d?

/-- Deserializer for the value under an `error` key: the `Status::Error`
struct variant requires a JSON object. -/
def errorVariantFromJson : Json → Except DeError Status
  | .obj fields => errorFields fields none none none
  | j => .error (.invalidType j.typeName "struct variant Status::Error")

/-- Embeds serde's flattened-enum dispatch for `Status` (the
`#[serde(flatten)]` field of `Response`): scan the collected leftover keys
in document order and use the first one whose name is a variant name
(`result` or `error`); if none matches, fail with the flattened-data
message.  Keys after the first match are not examined. -/
def statusFromFlattened : List (String × Json) → Except DeError Status
  | [] => .error (.custom "no variant of enum Status found in flattened data")
  | (k, v) :: rest =>
    if k == "result" then .ok (.success v)
    else if k == "error" then errorVariantFromJson v
    else statusFromFlattened rest

/-- Field loop of the derived `Response` deserializer: `jsonrpc` and `id` are
named fields (decoded eagerly, duplicates rejected); every other key is
collected, in document order, for the flattened `Status`. -/
def Response.fromFields :
    List (String × Json) → Option String → Option Id →
    List (String × Json) → Except DeError Response
  | [], jr?, i?, coll =>
    match jr? with
    | none => .error (.missingField "jsonrpc")
    | some jr =>
      match i? with
      | none => .error (.missingField "id")
      | some i => (statusFromFlattened coll).map fun st => ⟨jr, i, st⟩
  | (k, v) :: rest, jr?, i?, coll =>
    if k == "jsonrpc" then
      if jr?.isSome then .error (.duplicateField "jsonrpc")
      else
        match versionFromJson v with
        | .ok s => Response.fromFields rest (some s) i? coll
        | .error e => .error e
    else if k == "id" then
      if i?.isSome then .error (.duplicateField "id")
      else
        match Id.fromJson v with
        | .ok i => Response.fromFields rest jr? (some i) coll
        | .error e => .error e
    else Response.fromFields rest jr? i? (coll ++ [(k, v)])

/-- Deserialization of `Response`. -/
def Response.fromJson : Json → Except DeError Response
  | .obj fields => Response.fromFields fields none none []
  | j => .error (.invalidType j.typeName "struct Response")

/-- Serialization of an `Option<Value>` field: `None` serializes as JSON
`null` (so does `Some(Null)`). -/
def dataJson : Option Json → Json
  | some v => v
  | none => .null

/-- Serialization of the flattened `Status` (derived, externally tagged):
success contributes a single `result` key; error contributes a single
`error` key whose object always holds `code`, `message` and `data`, the
latter as JSON `null` when unset (the `Option` field carries no skip
attribute). -/
def Status.flattenJson : Status → List (String × Json)
  | .success v => [("result", v)]
  | .error c m d =>
    [("error", .obj [("code", .num c), ("message", .str m), ("data", dataJson d)])]

/-- Serialization of `Response` (derived): `jsonrpc`, `id`, then the
flattened status keys. -/
def Response.toJson (r : Response) : Json :=
  .obj (("jsonrpc", .str r.jsonrpc) :: ("id", r.id.toJson) :: r.status.flattenJson)

/-- Embeds `response::builder::SuccessBuilder::<Id>::build`: an unset result
serializes the success payload as JSON `null`. -/
def Response.buildSuccess (id : Id) (result : Option Json) : Response :=
  ⟨"2.0", id, .success (match result with | some v => v | none => .null)⟩

/-- Embeds `response::builder::ErrorBuilder::<Id, Code, Message>::build`. -/
def Response.buildError (id : Id) (code : Int) (message : String)
    (data : Option Json) : Response :=
  ⟨"2.0", id, .error code message data⟩

/-- Embeds the builder chain `Response::builder().error().invalid_params()`
followed by `id(..)` and `build()`: the preset atomically sets code -32602
and message "Invalid params"; no data is set. -/
def Response.buildInvalidParams (id : Id) : Response :=
  Response.buildError id (-32602) "Invalid params" none

/-- Embeds `ServerErrorCode::new` (`src/response/builder.rs`): the constructor
panics — modelled as `none` — when `val <= -32000 || val >= -32099`, and
otherwise wraps the code. -/
def ServerErrorCode.new (val : Int) : Option Int :=
  if val ≤ -32000 ∨ -32099 ≤ val then none else some val

/-- Embeds the builder chain `error().server_error(code)` (which converts the
code through `ServerErrorCode::new`, fixing the message to "Server error")
followed by `id(..)`, optional `data(..)` and `build()`. -/
def Response.buildServerError (id : Id) (code : Int) (data : Option Json) :
    Option Response :=
  (ServerErrorCode.new code).map fun c =>
    Response.buildError id c "Server error" data

/-!
The textual JSON layer.  The crate delegates text handling to `serde_json`,
an external collaborator that the specification treats as a trusted
primitive: a total text-to-tree reader that fails with a syntax error on
malformed text (including a depth limit on nesting), and a compact
tree-to-text printer.  The following executable reader and printer model
that collaborator over the `Json` tree; the reader's fuel bound plays the
role of `serde_json`'s recursion limit.
-/

/-- The opening-brace character of JSON object syntax. -/
def lbrace : Char := Char.ofNat 123

/-- The closing-brace character of JSON object syntax. -/
def rbrace : Char := Char.ofNat 125

/-- JSON insignificant whitespace (space, tab, line feed, carriage return). -/
def jsonWs (c : Char) : Bool :=
  c.toNat == 32 || c.toNat == 9 || c.toNat == 10 || c.toNat == 13

/-- Drop leading JSON whitespace. -/
def dropWs : List Char → List Char
  | [] => []
  | c :: cs => if jsonWs c then dropWs cs else c :: cs

/-- Decimal digit test. -/
def isDecDigit (c : Char) : Bool := '0' ≤ c && c ≤ '9'

/-- Split a leading run of decimal digits from the rest. -/
def readDigits : List Char → List Char × List Char
  | [] => ([], [])
  | c :: cs =>
    if isDecDigit c then
      let (ds, r) := readDigits cs
      (c :: ds, r)
    else ([], c :: cs)

/-- Numeric value of a digit run. -/
def digitsVal (ds : List Char) : Nat :=
  ds.foldl (fun a c => 10 * a + (c.toNat - 48)) 0

/-- Value of one hexadecimal digit, if any. -/
def hexDigitVal (c : Char) : Option Nat :=
  if '0' ≤ c && c ≤ '9' then some (c.toNat - 48)
  else if 'a' ≤ c && c ≤ 'f' then some (c.toNat - 87)
  else if 'A' ≤ c && c ≤ 'F' then some (c.toNat - 55)
  else none

/-- Single-character JSON escapes, keyed by the escape letter's code point
(34 `"`, 92 `\`, 47 `/`, then n, t, r, b, f mapping to their control
characters). -/
def escapeCode (c : Char) : Option Char :=
  match c.toNat with
  | 34 => some c
  | 92 => some c
  | 47 => some c
  | 110 => some (Char.ofNat 10)
  | 116 => some (Char.ofNat 9)
  | 114 => some (Char.ofNat 13)
  | 98 => some (Char.ofNat 8)
  | 102 => some (Char.ofNat 12)
  | _ => none

/-- Read the body of a JSON string (after the opening quote) up to the
closing quote, resolving escapes. -/
def readStringBody (acc : List Char) : List Char → Option (String × List Char)
  | [] => none
  | '"' :: cs => some (⟨acc.reverse⟩, cs)
  | '\\' :: 'u' :: a :: b :: c :: d :: cs => do
    let va ← hexDigitVal a
    let vb ← hexDigitVal b
    let vc ← hexDigitVal c
    let vd ← hexDigitVal d
    readStringBody (Char.ofNat (((va * 16 + vb) * 16 + vc) * 16 + vd) :: acc) cs
  | '\\' :: e :: cs => do
    let ch ← escapeCode e
    readStringBody (ch :: acc) cs
  | c :: cs => readStringBody (c :: acc) cs

/-- Read the digits of a JSON number after its optional sign.  A literal
with neither fraction nor exponent that fits the signed 64-bit range is
integral (`Json.num`, as `serde_json` parses it into an integer `Number`);
a literal with a decimal point or an exponent — even one of integral
value, such as `2.0` — is a float (`Json.fnum`), as is an out-of-range
integer literal. -/
def readNumSigned (neg : Bool) (cs1 : List Char) : Option (Json × List Char) :=
  let (ids, cs2) := readDigits cs1
  if ids.isEmpty then none
  else
    let (hasFrac, fds, cs3) := match cs2 with
      | '.' :: r =>
        let (ds, r') := readDigits r
        (true, ds, r')
      | _ => (false, [], cs2)
    if hasFrac && fds.isEmpty then none
    else
      let (hasExp, expNeg, eds, cs4) := match cs3 with
        | 'e' :: r | 'E' :: r =>
          match r with
          | '+' :: r' =>
            let (ds, r'') := readDigits r'
            (true, false, ds, r'')
          | '-' :: r' =>
            let (ds, r'') := readDigits r'
            (true, true, ds, r'')
          | _ =>
            let (ds, r'') := readDigits r
            (true, false, ds, r'')
        | _ => (false, false, [], cs3)
      if hasExp && eds.isEmpty then none
      else if !hasFrac && !hasExp then
        let v : Int := if neg then -(digitsVal ids : Int) else (digitsVal ids : Int)
        if -(2 ^ 63) ≤ v ∧ v ≤ 2 ^ 63 - 1 then some (.num v, cs4)
        else some (.fnum (v : Rat), cs4)
      else
        let k := fds.length
        let base : Int := (digitsVal ids * 10 ^ k + digitsVal fds : Nat)
        let base : Int := if neg then -base else base
        let ev := digitsVal eds
        let q : Rat :=
          if expNeg then mkRat base (10 ^ k * 10 ^ ev)
          else mkRat (base * 10 ^ ev) (10 ^ k)
        some (.fnum q, cs4)

/-- Read a JSON number, splitting off an optional leading minus sign. -/
def readNum : List Char → Option (Json × List Char)
  | '-' :: r => readNumSigned true r
  | cs => readNumSigned false cs

mutual

/-- Fuel-bounded recursive-descent JSON value reader. -/
def parseVal : Nat → List Char → Option (Json × List Char)
  | 0, _ => none
  | fuel + 1, cs =>
    match dropWs cs with
    | 'n' :: 'u' :: 'l' :: 'l' :: r => some (.null, r)
    | 't' :: 'r' :: 'u' :: 'e' :: r => some (.bool true, r)
    | 'f' :: 'a' :: 'l' :: 's' :: 'e' :: r => some (.bool false, r)
    | '"' :: r => (readStringBody [] r).map fun (s, r') => (.str s, r')
    | '[' :: r =>
      match dropWs r with
      | ']' :: r' => some (.arr [], r')
      | r' => (parseItems fuel r').map fun (es, r'') => (.arr es, r'')
    | c :: r =>
      if c == lbrace then
        match dropWs r with
        | c' :: r' =>
          if c' == rbrace then some (.obj [], r')
          else (parseMembers fuel (c' :: r')).map fun (fs, r'') => (.obj fs, r'')
        | [] => none
      else readNum (c :: r)
    | [] => none

/-- Comma-separated array items up to the closing bracket. -/
def parseItems : Nat → List Char → Option (List Json × List Char)
  | 0, _ => none
  | fuel + 1, cs => do
    let (v, r) ← parseVal fuel cs
    match dropWs r with
    | ',' :: r' =>
      let (es, r'') ← parseItems fuel r'
      pure (v :: es, r'')
    | ']' :: r' => pure ([v], r')
    | _ => none

/-- Comma-separated object members up to the closing brace. -/
def parseMembers : Nat → List Char → Option (List (String × Json) × List Char)
  | 0, _ => none
  | fuel + 1, cs =>
    match dropWs cs with
    | '"' :: r => do
      let (key, r1) ← readStringBody [] r
      match dropWs r1 with
      | ':' :: r2 => do
        let (v, r3) ← parseVal fuel r2
        match dropWs r3 with
        | ',' :: r4 =>
          let (fs, r5) ← parseMembers fuel r4
          pure ((key, v) :: fs, r5)
        | c :: r4 =>
          if c == rbrace then pure ([(key, v)], r4) else none
        | [] => none
      | _ => none
    | _ => none

end

/-- Models `serde_json::from_str`'s value layer: read one JSON value and
require only whitespace after it.  Empty text reads no value at all, so it
is a syntax error, exactly like any other malformed text. -/
def Json.parse (s : String) : Option Json :=
  match parseVal (2 * s.length + 2) s.data with
  | some (v, rest) => if (dropWs rest).isEmpty then some v else none
  | none => none

/-- Decimal digit character. -/
def digitChar (n : Nat) : Char := Char.ofNat (48 + n)

/-- Fraction digits of `r / d` (with `r < d`), stopping at a zero remainder
or at the fuel bound. -/
def fracDigitChars : Nat → Nat → Nat → List Char
  | 0, _, _ => []
  | _ + 1, 0, _ => []
  | fuel + 1, r, d =>
    digitChar (r * 10 / d) :: fracDigitChars fuel (r * 10 % d) d

/-- Decimal rendering of a float value, in the `serde_json` style that always
keeps a fractional part (`2.0`, not `2`).  Finite binary floats have finite
decimal expansions, so the fuel bound is never reached on values that a
real float field can hold. -/
def ratToDecimal (q : Rat) : String :=
  let sign := if q.num < 0 then "-" else ""
  let a := q.num.natAbs
  let frs := fracDigitChars 1200 (a % q.den) q.den
  sign ++ toString (a / q.den) ++ "." ++ (if frs.isEmpty then "0" else String.mk frs)

/-- Lower-case hexadecimal digit character. -/
def hexChar (n : Nat) : Char :=
  if n < 10 then Char.ofNat (48 + n) else Char.ofNat (87 + n)

/-- Escape one character for a JSON string literal, in the `serde_json`
style: the two mandatory escapes, short escapes for the common control
characters, and `\u00XX` for the remaining control characters. -/
def escapeStringChar (c : Char) : String :=
  if c == '"' then "\\\""
  else if c == '\\' then "\\\\"
  else if c == '\n' then "\\n"
  else if c == '\t' then "\\t"
  else if c == '\r' then "\\r"
  else if c == Char.ofNat 8 then "\\b"
  else if c == Char.ofNat 12 then "\\f"
  else if c.toNat < 32 then
    "\\u00" ++ String.mk [hexChar (c.toNat / 16), hexChar (c.toNat % 16)]
  else String.singleton c

/-- Quoted, escaped JSON string literal. -/
def serializeString (s : String) : String :=
  "\"" ++ String.join (s.data.map escapeStringChar) ++ "\""

mutual

/-- Models `serde_json::to_string`: compact printing with no spaces, object
keys in insertion order. -/
def Json.serialize : Json → String
  | .null => "null"
  | .bool b => cond b "true" "false"
  | .num n => toString n
  | .fnum q => ratToDecimal q
  | .str s => serializeString s
  | .arr es => "[" ++ Json.serializeElems es ++ "]"
  | .obj fs => "\x7b" ++ Json.serializeMembers fs ++ "\x7d"

/-- Comma-separated printing of array elements. -/
def Json.serializeElems : List Json → String
  | [] => ""
  | [e] => Json.serialize e
  | e :: es => Json.serialize e ++ "," ++ Json.serializeElems es

/-- Comma-separated printing of object members. -/
def Json.serializeMembers : List (String × Json) → String
  | [] => ""
  | [(k, v)] => serializeString k ++ ":" ++ Json.serialize v
  | (k, v) :: fs =>
    serializeString k ++ ":" ++ Json.serialize v ++ "," ++ Json.serializeMembers fs

end

/-- Embeds `impl TryFrom<&str> for Params` (`serde_json::from_str::<Params>`):
read the text through the external parser, then apply the `Params`
object-or-array shape check; a parse failure (empty text included) is a
wrapped serde error. -/
def Params.tryFromStr (s : String) : Except Error Params :=
  match Json.parse s with
  | none => .error (.serde "syntax error while parsing JSON")
  | some v =>
    match Params.fromJson v with
    | .ok p => .ok p
    | .error e => .error (.serde e.message)

/-- Embeds `impl TryFrom<Params> for String` (`serde_json::to_string`). -/
def Params.tryIntoStr (p : Params) : String := Json.serialize p.val

/-!
Theorems settling the claims.
-/

/-- Claim C1.  The claim (and the crate's own panic message, comment and
doc) say `server_error` accepts exactly the codes in the closed band
[-32099, -32000], e.g. -32050, and fails outside it.  The compiled guard in
`ServerErrorCode::new` is `val <= -32000 || val >= -32099`, which is true
of every integer (every in-band code satisfies both disjuncts), so the
panic branch is taken unconditionally: construction fails for every code,
the in-band `-32050` included.  This theorem evaluates the embedded
constructor at the claim's example and in general, and shows the
`server_error` builder path can never produce a response. -/
theorem claimC1_server_error_always_panics :
    ServerErrorCode.new (-32050) = none ∧
    (∀ val : Int, ServerErrorCode.new val = none) ∧
    (∀ (id : Id) (code : Int) (data : Option Json),
      Response.buildServerError id code data = none) := by
  have h : ∀ val : Int, ServerErrorCode.new val = none := by
    intro val
    simp only [ServerErrorCode.new]
    rw [if_pos (by omega)]
  exact ⟨h (-32050), h, fun id code data => by
    simp only [Response.buildServerError]
    rw [h code]
    rfl⟩

/-- Claim C5.  Version strictness for all three envelope kinds: the version
validator accepts exactly the JSON string "2.0" (returned unchanged),
rejects the string "2.1" with a value error, and rejects the bare number
2.0 with a type error (a distinct error constructor); decoding any of the
three envelopes whose `jsonrpc` member holds one of the two bad values
fails with exactly that error, and concrete envelopes carrying the string
"2.0" decode successfully. -/
theorem claimC5_version_strictness :
    (∀ j s, versionFromJson j = .ok s ↔ j = .str "2.0" ∧ s = "2.0") ∧
    (versionFromJson (.str "2.1") = .error (.custom "jsonrpc version NOT 2.0: 2.1")) ∧
    (versionFromJson (.fnum 2) =
      .error (.invalidType "floating point" "jsonrpc version MUST be \"2.0\"")) ∧
    (∀ rest, Request.fromJson (.obj (("jsonrpc", .str "2.1") :: rest)) =
      .error (.custom "jsonrpc version NOT 2.0: 2.1")) ∧
    (∀ rest, Request.fromJson (.obj (("jsonrpc", .fnum 2) :: rest)) =
      .error (.invalidType "floating point" "jsonrpc version MUST be \"2.0\"")) ∧
    (∀ rest, Notification.fromJson (.obj (("jsonrpc", .str "2.1") :: rest)) =
      .error (.custom "jsonrpc version NOT 2.0: 2.1")) ∧
    (∀ rest, Notification.fromJson (.obj (("jsonrpc", .fnum 2) :: rest)) =
      .error (.invalidType "floating point" "jsonrpc version MUST be \"2.0\"")) ∧
    (∀ rest, Response.fromJson (.obj (("jsonrpc", .str "2.1") :: rest)) =
      .error (.custom "jsonrpc version NOT 2.0: 2.1")) ∧
    (∀ rest, Response.fromJson (.obj (("jsonrpc", .fnum 2) :: rest)) =
      .error (.invalidType "floating point" "jsonrpc version MUST be \"2.0\"")) ∧
    (Request.fromJson (.obj [("jsonrpc", .str "2.0"), ("method", .str "subtract"),
        ("id", .num 1)]) = .ok ⟨"2.0", "subtract", none, .number 1⟩) ∧
    (Notification.fromJson (.obj [("jsonrpc", .str "2.0"), ("method", .str "update")]) =
      .ok ⟨"2.0", "update", none⟩) ∧
    (Response.fromJson (.obj [("jsonrpc", .str "2.0"), ("id", .num 1),
        ("result", .null)]) = .ok ⟨"2.0", .number 1, .success .null⟩) := by
  refine ⟨fun j s => ?_, rfl, rfl, fun _ => rfl, fun _ => rfl, fun _ => rfl,
    fun _ => rfl, fun _ => rfl, fun _ => rfl, rfl, rfl, rfl⟩
  cases j with
  | str v =>
    simp only [versionFromJson]
    by_cases h : v = "2.0"
    · subst h
      simp [eq_comm]
    · rw [if_neg (by simpa using h)]
      simp [h]
  | null => simp [versionFromJson]
  | bool b => simp [versionFromJson]
  | num n => simp [versionFromJson]
  | fnum q => simp [versionFromJson]
  | arr es => simp [versionFromJson]
  | obj fs => simp [versionFromJson]

/-- Claim C6.  Extraction of each native target type (String, i64, f32,
unit) from an `Id` succeeds exactly on the matching variant, returning the
stored payload unchanged, and fails with the variant-and-target-specific
type-mismatch error on each of the three other variants; in particular a
`Number` is never coerced to `Fractional`. -/
theorem claimC6_id_extraction_strict :
    (∀ s, Id.tryIntoString (.string s) = .ok s) ∧
    (∀ n, Id.tryIntoString (.number n) =
      .error (.invalidType "cannot convert Id type Number to String")) ∧
    (∀ x, Id.tryIntoString (.fractional x) =
      .error (.invalidType "cannot convert Id type Fractional to String")) ∧
    (Id.tryIntoString .null =
      .error (.invalidType "cannot convert Id type Null to String")) ∧
    (∀ n, Id.tryIntoInt (.number n) = .ok n) ∧
    (∀ s, Id.tryIntoInt (.string s) =
      .error (.invalidType "cannot convert Id type String to Number")) ∧
    (∀ x, Id.tryIntoInt (.fractional x) =
      .error (.invalidType "cannot convert Id type Fractional to Number")) ∧
    (Id.tryIntoInt .null =
      .error (.invalidType "cannot convert Id type Null to Number")) ∧
    (∀ x, Id.tryIntoF32 (.fractional x) = .ok x) ∧
    (∀ s, Id.tryIntoF32 (.string s) =
      .error (.invalidType "cannot convert Id type String to Fractional")) ∧
    (∀ n, Id.tryIntoF32 (.number n) =
      .error (.invalidType "cannot convert Id type Number to Fractional")) ∧
    (Id.tryIntoF32 .null =
      .error (.invalidType "cannot convert Id type Null to Fractional")) ∧
    (Id.tryIntoUnit .null = .ok ()) ∧
    (∀ s, Id.tryIntoUnit (.string s) =
      .error (.invalidType "cannot convert Id type String to ()")) ∧
    (∀ n, Id.tryIntoUnit (.number n) =
      .error (.invalidType "cannot convert Id type Number to ()")) ∧
    (∀ x, Id.tryIntoUnit (.fractional x) =
      .error (.invalidType "cannot convert Id type Fractional to ()")) :=
  ⟨fun _ => rfl, fun _ => rfl, fun _ => rfl, rfl,
   fun _ => rfl, fun _ => rfl, fun _ => rfl, rfl,
   fun _ => rfl, fun _ => rfl, fun _ => rfl, rfl,
   rfl, fun _ => rfl, fun _ => rfl, fun _ => rfl⟩

/-- Claim C7.  `Params` construction rejects every scalar JSON value and
JSON `null` with the shape error, accepts every object and every array
unchanged, and construction from text fails on any text the JSON reader
rejects — empty text included, which reads as a syntax error rather than
as absent params. -/
theorem claimC7_params_shape :
    (∀ n, Params.fromJson (.num n) =
      .error (.custom "\"params\" must be a JSON object or array")) ∧
    (∀ q, Params.fromJson (.fnum q) =
      .error (.custom "\"params\" must be a JSON object or array")) ∧
    (∀ s, Params.fromJson (.str s) =
      .error (.custom "\"params\" must be a JSON object or array")) ∧
    (∀ b, Params.fromJson (.bool b) =
      .error (.custom "\"params\" must be a JSON object or array")) ∧
    (Params.fromJson .null =
      .error (.custom "\"params\" must be a JSON object or array")) ∧
    (∀ fs, Params.fromJson (.obj fs) = .ok ⟨.obj fs⟩) ∧
    (∀ es, Params.fromJson (.arr es) = .ok ⟨.arr es⟩) ∧
    (∀ s, Json.parse s = none →
      Params.tryFromStr s = .error (.serde "syntax error while parsing JSON")) ∧
    (Json.parse "" = none) := by
  refine ⟨fun _ => rfl, fun _ => rfl, fun _ => rfl, fun _ => rfl, rfl,
    fun _ => rfl, fun _ => rfl, fun s h => ?_, rfl⟩
  simp [Params.tryFromStr, h]

/-- Witness for claim C7's hypothesis-bearing conjunct, instantiated at the
empty text: the reader rejects it, so `Params` construction from it fails
with the wrapped syntax error. -/
theorem claimC7_params_shape_witness :
    Params.tryFromStr "" = .error (.serde "syntax error while parsing JSON") :=
  claimC7_params_shape.2.2.2.2.2.2.2.1 "" rfl

/-- Claim C8.  The claim (and the intent documented by the crate's own
negative test, whose input is however malformed for unrelated reasons)
says a JSON object containing an `id` key must not decode as a
Notification.  The derived `Notification` deserializer carries no
`deny_unknown_fields` attribute, so serde skips unknown keys: an `id`
entry is ignored wherever it occurs, and a well-formed Request text
decodes successfully as a Notification.  This theorem evaluates the
embedded decoder at such a text and shows the skip in general. -/
theorem claimC8_notification_ignores_id_key :
    Notification.fromJson (.obj [("jsonrpc", .str "2.0"), ("method", .str "subtract"),
      ("id", .num 2)]) = .ok ⟨"2.0", "subtract", none⟩ ∧
    (∀ (v : Json) (rest : List (String × Json)) jr? m? p?,
      Notification.fromFields (("id", v) :: rest) jr? m? p? =
        Notification.fromFields rest jr? m? p?) :=
  ⟨rfl, fun _ _ _ _ _ => rfl⟩

/-- Counterexample to claim C9: decoding a Request whose `method` value is
the empty string succeeds — the struct field is a plain string with no
non-emptiness validation — where the claim says it must fail. -/
theorem claimC9_counterexample_empty_method_accepted :
    Request.fromJson (.obj [("jsonrpc", .str "2.0"), ("method", .str ""),
      ("id", .num 1)]) = .ok ⟨"2.0", "", none, .number 1⟩ := rfl

/-- Claim C9 as amended: the `method` field of a Request and of a
Notification is arbitrary text — the empty string included.  Decoding an
otherwise valid envelope with an empty `method` succeeds, and the builders
store whatever method string they are given, empty or not. -/
theorem claimC9_method_is_arbitrary_text :
    (Request.fromJson (.obj [("jsonrpc", .str "2.0"), ("method", .str ""),
      ("id", .num 1)]) = .ok (Request.build "" none (.number 1))) ∧
    (Notification.fromJson (.obj [("jsonrpc", .str "2.0"), ("method", .str "")]) =
      .ok (Notification.build "" none)) ∧
    (∀ m ps i, (Request.build m ps i).method = m) ∧
    (∀ m ps, (Notification.build m ps).method = m) :=
  ⟨rfl, rfl, fun _ _ _ => rfl, fun _ _ => rfl⟩

/-- Decoding inverts encoding on every `Id`. -/
theorem Id.fromJson_toJson (i : Id) : Id.fromJson i.toJson = .ok i := by
  cases i <;> rfl

/-- One step of the `Response` field loop on an `id` entry whose value
decodes, with the `id` slot still empty. -/
theorem Response.fromFields_id_step (v : Json) (i : Id) (h : Id.fromJson v = .ok i)
    (rest : List (String × Json)) (jr? : Option String) (coll : List (String × Json)) :
    Response.fromFields (("id", v) :: rest) jr? none coll =
      Response.fromFields rest jr? (some i) coll := by
  have s1 : Response.fromFields (("id", v) :: rest) jr? none coll =
      match Id.fromJson v with
      | .ok i => Response.fromFields rest jr? (some i) coll
      | .error e => .error e := rfl
  rw [s1, h]

/-- One step of the `Response` field loop on a key that belongs to the
flattened `Status`: the entry is collected in order. -/
theorem Response.fromFields_collect_step (k : String) (v : Json)
    (h1 : k ≠ "jsonrpc") (h2 : k ≠ "id") (rest : List (String × Json))
    (jr? : Option String) (i? : Option Id) (coll : List (String × Json)) :
    Response.fromFields ((k, v) :: rest) jr? i? coll =
      Response.fromFields rest jr? i? (coll ++ [(k, v)]) := by
  simp [Response.fromFields, h1, h2]

/-- Once `jsonrpc` and `id` are in hand, the rest of the field loop only
extends the collected list, and the response is assembled from the status
decoded off the collected entries. -/
theorem Response.fromFields_flatten (rest : List (String × Json)) :
    ∀ (coll : List (String × Json)) (jr : String) (i : Id),
      (∀ kv ∈ rest, kv.1 ≠ "jsonrpc" ∧ kv.1 ≠ "id") →
      Response.fromFields rest (some jr) (some i) coll =
        (statusFromFlattened (coll ++ rest)).map fun st => ⟨jr, i, st⟩ := by
  induction rest with
  | nil =>
    intro coll jr i _
    simp [Response.fromFields]
  | cons kv rest ih =>
    intro coll jr i h
    obtain ⟨k, v⟩ := kv
    obtain ⟨h1, h2⟩ := h (k, v) (List.mem_cons_self _ _)
    rw [Response.fromFields_collect_step k v h1 h2,
      ih _ jr i (fun kv hkv => h kv (List.mem_cons_of_mem _ hkv))]
    simp

/-- The flattened status dispatch never finds a variant among keys that are
neither `result` nor `error`. -/
theorem statusFromFlattened_no_variant (rest : List (String × Json))
    (h : ∀ kv ∈ rest, kv.1 ≠ "result" ∧ kv.1 ≠ "error") :
    statusFromFlattened rest =
      .error (.custom "no variant of enum Status found in flattened data") := by
  induction rest with
  | nil => rfl
  | cons kv rest ih =>
    obtain ⟨k, v⟩ := kv
    obtain ⟨h1, h2⟩ := h (k, v) (List.mem_cons_self _ _)
    rw [show statusFromFlattened ((k, v) :: rest) =
        (if k == "result" then .ok (.success v)
         else if k == "error" then errorVariantFromJson v
         else statusFromFlattened rest) from rfl]
    simp only [beq_iff_eq, h1, h2, if_false]
    exact ih fun kv hkv => h kv (List.mem_cons_of_mem _ hkv)

/-- One step of the `Status::Error` field loop on an in-range `code` entry. -/
theorem errorFields_code_step (c : Int) (h : i32InRange c = true)
    (rest : List (String × Json)) (m? : Option String) (d? : Option (Option Json)) :
    errorFields (("code", .num c) :: rest) none m? d? =
      errorFields rest (some c) m? d? := by
  have s1 : errorFields (("code", .num c) :: rest) none m? d? =
      if i32InRange c then errorFields rest (some c) m? d?
      else .error (.custom "invalid value: integer out of range for i32") := rfl
  rw [s1, h]
  rfl

/-- One step of the `Status::Error` field loop on a non-null `data` entry. -/
theorem errorFields_data_step (v : Json) (hv : v.isNull = false)
    (rest : List (String × Json)) (c? : Option Int) (m? : Option String) :
    errorFields (("data", v) :: rest) c? m? none =
      errorFields rest c? m? (some (some v)) := by
  cases v
  case null => exact Bool.noConfusion hv
  all_goals rfl

/-- The `Status::Error` variant decoder inverts the encoder on every
in-range code, message and optional data, provided the data is not the
JSON `null` value (which decodes back to an unset data). -/
theorem errorVariant_roundtrip (c : Int) (msg : String) (d : Option Json)
    (h : i32InRange c = true) (hd : d.all (fun v => !v.isNull) = true) :
    errorVariantFromJson (.obj [("code", .num c), ("message", .str msg),
      ("data", dataJson d)]) = .ok (.error c msg d) := by
  cases d with
  | none =>
    simp only [dataJson]
    rw [show errorVariantFromJson (.obj [("code", .num c), ("message", .str msg),
        ("data", .null)]) =
        errorFields [("code", .num c), ("message", .str msg), ("data", .null)]
          none none none from rfl,
      errorFields_code_step c h]
    rfl
  | some v =>
    have hv : v.isNull = false := by
      cases v
      case null => exact Bool.noConfusion hd
      all_goals rfl
    simp only [dataJson]
    rw [show errorVariantFromJson (.obj [("code", .num c), ("message", .str msg),
        ("data", v)]) =
        errorFields [("code", .num c), ("message", .str msg), ("data", v)]
          none none none from rfl,
      errorFields_code_step c h,
      show errorFields [("message", .str msg), ("data", v)] (some c) none none =
        errorFields [("data", v)] (some c) (some msg) none from rfl,
      errorFields_data_step v hv]
    rfl

/-- Claim C10.  The untagged `Id` decoder tries String, Number, Fractional,
Null in order, so a JSON number: an integral literal (no decimal point,
within the signed 64-bit range, e.g. `2`) is claimed by the `i64` variant
and decodes as `Number`, while a literal with a decimal point (e.g. `2.0`)
is a float, on which the `i64` trial fails and the `f32` trial succeeds,
so it decodes as `Fractional` even though its value is integral. -/
theorem claimC10_id_numeric_variant_selection :
    (∀ n, Id.fromJson (.num n) = .ok (.number n)) ∧
    (∀ q, Id.fromJson (.fnum q) = .ok (.fractional q)) ∧
    (Json.parse "2" = some (.num 2)) ∧
    (Json.parse "2.0" = some (.fnum 2)) ∧
    ((Json.parse "2.0").map Id.fromJson = some (.ok (.fractional 2))) ∧
    ((Json.parse "2").map Id.fromJson = some (.ok (.number 2))) :=
  ⟨fun _ => rfl, fun _ => rfl, rfl, rfl, rfl, rfl⟩

/-- Counterexample to claim C3: the `data` field of `Status::Error` carries
no skip attribute, so serializing an error response built with no data
still emits a `data` key holding JSON `null`.  Encoding the claim's
scenario (id 10, `error().invalid_params()`) therefore does not produce
the claimed text without a `data` key. -/
theorem claimC3_counterexample_data_key_emitted :
    Json.serialize (Response.toJson (Response.buildInvalidParams (.number 10))) ≠
      "\x7b\"jsonrpc\":\"2.0\",\"id\":10,\"error\":\x7b\"code\":-32602,\"message\":\"Invalid params\"\x7d\x7d" := by
  have h : Json.serialize (Response.toJson (Response.buildInvalidParams (.number 10))) =
      "\x7b\"jsonrpc\":\"2.0\",\"id\":10,\"error\":\x7b\"code\":-32602,\"message\":\"Invalid params\",\"data\":null\x7d\x7d" := by
    simp [Json.serialize, Json.serializeMembers]
    rfl
  rw [h]
  decide

/-- Claim C3 as amended: encoding an error `Response` always emits the
`data` key inside the `error` object — as JSON `null` when no data was
set — alongside `code` and `message`, while a success emits a lone
`result` key; the claim's scenario (id 10, `error().invalid_params()`)
encodes to exactly the claimed text extended with `"data":null`. -/
theorem claimC3_error_encoding_always_emits_data :
    (∀ c m, Status.flattenJson (.error c m none) =
      [("error", .obj [("code", .num c), ("message", .str m), ("data", .null)])]) ∧
    (∀ c m v, Status.flattenJson (.error c m (some v)) =
      [("error", .obj [("code", .num c), ("message", .str m), ("data", v)])]) ∧
    (∀ v, Status.flattenJson (.success v) = [("result", v)]) ∧
    (Response.toJson (Response.buildInvalidParams (.number 10)) =
      .obj [("jsonrpc", .str "2.0"), ("id", .num 10),
            ("error", .obj [("code", .num (-32602)), ("message", .str "Invalid params"),
                            ("data", .null)])]) ∧
    (Json.serialize (Response.toJson (Response.buildInvalidParams (.number 10))) =
      "\x7b\"jsonrpc\":\"2.0\",\"id\":10,\"error\":\x7b\"code\":-32602,\"message\":\"Invalid params\",\"data\":null\x7d\x7d") := by
  refine ⟨fun _ _ => rfl, fun _ _ _ => rfl, fun _ => rfl, rfl, ?_⟩
  simp [Json.serialize, Json.serializeMembers]
  rfl

/-- Counterexample to claim C4: a response object carrying both a `result`
key and an `error` key decodes successfully — serde's flattened-enum
dispatch takes the first key that names a `Status` variant and never
checks for a second one — where the claim says such an object must fail
to decode. -/
theorem claimC4_counterexample_both_keys_accepted :
    Response.fromJson (.obj [("jsonrpc", .str "2.0"), ("id", .num 1),
      ("result", .num 19),
      ("error", .obj [("code", .num (-32600)), ("message", .str "x")])]) =
      .ok ⟨"2.0", .number 1, .success (.num 19)⟩ := rfl

/-- Claim C4 as amended: for a JSON object with valid `jsonrpc` and `id`
fields, decoding as a Response fails when the remaining keys include
neither `result` nor `error`, and succeeds when they include at least one
of the two, selecting the variant of whichever of the two keys comes
first in document order — `result` yields the Success variant with the
key's value, `error` yields the Error variant provided its object carries
an in-range integer `code` and a string `message`, with `data` optional.
An object with both keys therefore decodes by the first of the two rather
than failing. -/
theorem claimC4_response_status_dispatch :
    (∀ (idJ : Json) (i : Id) (rest : List (String × Json)),
      Id.fromJson idJ = .ok i →
      (∀ kv ∈ rest, kv.1 ≠ "jsonrpc" ∧ kv.1 ≠ "id") →
      Response.fromJson (.obj (("jsonrpc", .str "2.0") :: ("id", idJ) :: rest)) =
        (statusFromFlattened rest).map fun st => ⟨"2.0", i, st⟩) ∧
    (∀ rest, (∀ kv ∈ rest, kv.1 ≠ "result" ∧ kv.1 ≠ "error") →
      statusFromFlattened rest =
        .error (.custom "no variant of enum Status found in flattened data")) ∧
    (∀ v rest, statusFromFlattened (("result", v) :: rest) = .ok (.success v)) ∧
    (∀ e rest, statusFromFlattened (("error", e) :: rest) = errorVariantFromJson e) ∧
    (∀ c m, i32InRange c = true →
      errorVariantFromJson (.obj [("code", .num c), ("message", .str m)]) =
        .ok (.error c m none)) ∧
    (∀ c m d, i32InRange c = true → d.isNull = false →
      errorVariantFromJson (.obj [("code", .num c), ("message", .str m),
        ("data", d)]) = .ok (.error c m (some d))) := by
  refine ⟨fun idJ i rest hid hrest => ?_, statusFromFlattened_no_variant,
    fun _ _ => rfl, fun _ _ => rfl, fun c m h => ?_, fun c m d h hd => ?_⟩
  · have s1 : Response.fromJson (.obj (("jsonrpc", .str "2.0") :: ("id", idJ) :: rest)) =
        Response.fromFields (("id", idJ) :: rest) (some "2.0") none [] := rfl
    rw [s1, Response.fromFields_id_step idJ i hid]
    exact Response.fromFields_flatten rest [] "2.0" i hrest
  · rw [show errorVariantFromJson (.obj [("code", .num c), ("message", .str m)]) =
        errorFields [("code", .num c), ("message", .str m)] none none none from rfl,
      errorFields_code_step c h]
    rfl
  · rw [show errorVariantFromJson (.obj [("code", .num c), ("message", .str m),
        ("data", d)]) =
        errorFields [("code", .num c), ("message", .str m), ("data", d)]
          none none none from rfl,
      errorFields_code_step c h,
      show errorFields [("message", .str m), ("data", d)] (some c) none none =
        errorFields [("data", d)] (some c) (some m) none from rfl,
      errorFields_data_step d hd]
    rfl

/-- Witness for claim C4's amended theorem, instantiated at a concrete
response whose only status key is `result`: the hypotheses hold by
computation and the dispatch produces the Success variant. -/
theorem claimC4_response_status_dispatch_witness :
    Response.fromJson (.obj [("jsonrpc", .str "2.0"), ("id", .num 1),
      ("result", .num 19)]) = .ok ⟨"2.0", .number 1, .success (.num 19)⟩ := by
  have h := claimC4_response_status_dispatch.1 (.num 1) (.number 1)
    [("result", .num 19)] rfl (by simp)
  exact h.trans rfl

/-- Counterexample to claim C2: an error response built through the builder
with its optional `data` set to the JSON `null` value does not survive the
round trip — `data: Some(Null)` serializes to `"data":null`, which decodes
back to an unset `data: None` — so decode(encode(E)) differs from E for
this builder-constructed envelope. -/
theorem claimC2_counterexample_null_error_data :
    Response.fromJson (Response.toJson
        (Response.buildError (.number 7) (-32000) "oops" (some .null))) ≠
      .ok (Response.buildError (.number 7) (-32000) "oops" (some .null)) := by
  intro h
  have h' : (Except.ok (⟨"2.0", .number 7, .error (-32000) "oops" none⟩ : Response) :
      Except DeError Response) =
      .ok (⟨"2.0", .number 7, .error (-32000) "oops" (some .null)⟩ : Response) := h
  injection h' with h1
  injection h1 with _ _ h2
  injection h2 with _ _ h3
  exact Option.noConfusion h3

/-- Claim C2 as amended: for every envelope constructed through its builder,
decoding the JSON produced by encoding it yields the original envelope —
except that an error response whose optional `data` was set to the JSON
`null` value comes back with `data` unset.  The builder-reachable inputs
are characterized by what the staged setters allow: any method string and
id; params absent or shaped by the `Params` object-or-array check; any
result value or none; any `i32` error code, message, and optional
non-null data. -/
theorem claimC2_builder_roundtrip :
    (∀ (m : String) (ps : Option Params) (i : Id),
      ps.all (fun p => p.val.isStructured) = true →
      Request.fromJson (Request.toJson (Request.build m ps i)) =
        .ok (Request.build m ps i)) ∧
    (∀ (m : String) (ps : Option Params),
      ps.all (fun p => p.val.isStructured) = true →
      Notification.fromJson (Notification.toJson (Notification.build m ps)) =
        .ok (Notification.build m ps)) ∧
    (∀ (i : Id) (res : Option Json),
      Response.fromJson (Response.toJson (Response.buildSuccess i res)) =
        .ok (Response.buildSuccess i res)) ∧
    (∀ (i : Id) (c : Int) (msg : String) (d : Option Json),
      i32InRange c = true →
      d.all (fun v => !v.isNull) = true →
      Response.fromJson (Response.toJson (Response.buildError i c msg d)) =
        .ok (Response.buildError i c msg d)) := by
  refine ⟨fun m ps i h => ?_, fun m ps h => ?_, fun i res => ?_,
    fun i c msg d h hd => ?_⟩
  · cases ps with
    | none => cases i <;> rfl
    | some p =>
      obtain ⟨v⟩ := p
      cases v
      case obj fs => cases i <;> rfl
      case arr es => cases i <;> rfl
      all_goals exact Bool.noConfusion h
  · cases ps with
    | none => rfl
    | some p =>
      obtain ⟨v⟩ := p
      cases v
      case obj fs => rfl
      case arr es => rfl
      all_goals exact Bool.noConfusion h
  · cases res <;> cases i <;> rfl
  · have s0 : Response.fromJson (Response.toJson (Response.buildError i c msg d)) =
        Response.fromFields
          (("id", i.toJson) ::
            [("error", .obj [("code", .num c), ("message", .str msg),
              ("data", dataJson d)])])
          (some "2.0") none [] := rfl
    rw [s0, Response.fromFields_id_step i.toJson i (Id.fromJson_toJson i)]
    have s2 : Response.fromFields
        [("error", .obj [("code", .num c), ("message", .str msg),
          ("data", dataJson d)])]
        (some "2.0") (some i) [] =
        (errorVariantFromJson (.obj [("code", .num c), ("message", .str msg),
          ("data", dataJson d)])).map
          (fun st => (⟨"2.0", i, st⟩ : Response)) := rfl
    rw [s2, errorVariant_roundtrip c msg d h hd]
    rfl

/-- Witness for claim C2's amended theorem, instantiated at concrete
builder outputs of all three envelope kinds (a request with array params,
a notification, a success response, and an error response with data). -/
theorem claimC2_builder_roundtrip_witness :
    Request.fromJson (Request.toJson
        (Request.build "subtract" (some ⟨.arr [.num 42, .num 23]⟩) (.number 1))) =
      .ok (Request.build "subtract" (some ⟨.arr [.num 42, .num 23]⟩) (.number 1)) ∧
    Notification.fromJson (Notification.toJson
        (Notification.build "update" (some ⟨.arr [.num 1, .num 2]⟩))) =
      .ok (Notification.build "update" (some ⟨.arr [.num 1, .num 2]⟩)) ∧
    Response.fromJson (Response.toJson
        (Response.buildSuccess (.number 2) (some (.num 19)))) =
      .ok (Response.buildSuccess (.number 2) (some (.num 19))) ∧
    Response.fromJson (Response.toJson
        (Response.buildError (.string "1") (-32601) "Method not found"
          (some (.str "detail")))) =
      .ok (Response.buildError (.string "1") (-32601) "Method not found"
        (some (.str "detail"))) :=
  ⟨claimC2_builder_roundtrip.1 "subtract" (some ⟨.arr [.num 42, .num 23]⟩)
      (.number 1) (by decide),
   claimC2_builder_roundtrip.2.1 "update" (some ⟨.arr [.num 1, .num 2]⟩) (by decide),
   claimC2_builder_roundtrip.2.2.1 (.number 2) (some (.num 19)),
   claimC2_builder_roundtrip.2.2.2 (.string "1") (-32601) "Method not found"
     (some (.str "detail")) (by decide) (by decide)⟩

end Jrpc
